import Mathlib

/-!
Shallow embedding of the `control` package (runner.go, monitor.go) of the
snap plugin-control plane, together with the external collaborator
interfaces it consumes, and proofs about the embedded operations.

Go-specific conventions used throughout:
* a Go `error` value is `Option String` (`none` = nil error);
* a Go channel of `struct\x7b\x7d` used only as a cancellation signal is
  modelled by its observable state (`opened`/`closed`); a nil channel is
  `Option.none`;
* a Go `panic` is an `Except goPanic` error result;
* goroutine bodies whose effects the claims do not observe (the monitor's
  ticker sweep) are elided: only the state transitions of the owning
  struct are modelled;
* Go `int` is the 64-bit signed integer; increments that can overflow
  are modelled with explicit two's-complement wraparound (`int64Wrap`).
-/

set_option autoImplicit false

namespace Control

/-- Go panics observable in this package: closing a nil channel, closing a
closed channel (both from `close(m.quit)` in monitor.go), and an explicit
`panic(err)` call carrying an error message (runner.go event handler). -/
inductive goPanic where
  | closeOfNilChannel
  | closeOfClosedChannel
  | errPanic (msg : String)
  deriving DecidableEq, Repr

/-- Observable state of a `chan struct\x7b\x7d` used as a one-shot signal. -/
inductive chanState where
  | opened
  | closed
  deriving DecidableEq, Repr

/-- Go `close(ch)` semantics on a possibly-nil channel:
closing a nil channel panics, closing a closed channel panics,
otherwise the channel becomes closed. -/
def closeChan : Option chanState → Except goPanic chanState
  | none => .error .closeOfNilChannel
  | some .closed => .error .closeOfClosedChannel
  | some .opened => .ok .closed

/-! ## monitor.go -/

/-- The `monitorState` constants: `MonitorStopped = iota - 1 = -1` (default), `MonitorStarted = 0`. -/
inductive monitorState where
  | MonitorStopped
  | MonitorStarted
  deriving DecidableEq, Repr

/-- The `availablePluginState` constants from runner.go:
`PluginRunning = 0` (default), `PluginStopped = 1`, `PluginDisabled = 2`. -/
inductive availablePluginState where
  | PluginRunning
  | PluginStopped
  | PluginDisabled
  deriving DecidableEq, Repr

/-- One nanosecond count per second, as in Go's `time.Second`. -/
def timeSecond : Nat := 1000000000

/-- The constant `DefaultMonitorDuration = time.Second * 60`. -/
def DefaultMonitorDuration : Nat := timeSecond * 60

/-- The constant `MaximumRunningPlugins = 3` (runner.go const block). -/
def MaximumRunningPlugins : Nat := 3

/-- The constant `HandlerRegistrationName = "control.runner"`. -/
def HandlerRegistrationName : String := "control.runner"

/-- The `monitor` struct: a state flag and the quit channel.
`quit = none` models the nil (never-allocated) channel of a monitor that
was constructed but never started. -/
structure monitor where
  State : monitorState
  quit : Option chanState
  deriving DecidableEq, Repr

/-- Constructor `newMonitor()`: `m := new(monitor); m.State = MonitorStopped`.
The `quit` channel is left unallocated (nil). -/
def newMonitor : monitor :=
  { State := .MonitorStopped, quit := none }

/-! ## The plugin registry (not under src/, modelled from the spec) -/

/-- Plugin categories (collector / processor / publisher), §3 of the spec. -/
inductive pluginCategory where
  | collector
  | processor
  | publisher
  deriving DecidableEq, Repr

/-- Modelled from the spec: `availablePlugin` (its constructor lives outside
src/). §3: `ID` integer assigned once at creation; `State` one of
Running/Stopped/Disabled, Running at creation; `Key` the PluginKey it
instantiates (the string form used by pool lookup); the category table it
belongs to. The opaque `Client` handle's behaviors (ping) are supplied by
the environment, not stored here. -/
structure availablePlugin where
  Id : Int
  State : availablePluginState
  Key : String
  Cat : pluginCategory
  deriving DecidableEq, Repr

/-- Modelled from the spec: `availablePluginPool`, the set of
`availablePlugin` entries sharing one key; `Count` is its size (§3). -/
structure availablePluginPool where
  plugins : List availablePlugin
  deriving DecidableEq, Repr

/-- Pool `Count()`. -/
def availablePluginPool.Count (p : availablePluginPool) : Nat :=
  p.plugins.length

/-- A category table: pools bucketed by key string. -/
abbrev poolTable : Type := List (String × availablePluginPool)

/-- Modelled from the spec: `GetPluginPool(key)` — lookup by key; absence
is not an error, it signals "no instances yet" (§4.2). -/
def GetPluginPool (tbl : poolTable) (key : String) : Option availablePluginPool :=
  (tbl.find? (fun kv => kv.1 == key)).map (fun kv => kv.2)

/-- Modelled from the spec: the `availablePlugins` registry, split into
three category tables (collectors, processors, publishers), §3. -/
structure availablePlugins where
  Collectors : poolTable
  Processors : poolTable
  Publishers : poolTable
  deriving DecidableEq, Repr

/-- Constructor `newAvailablePlugins()`: the empty registry. -/
def newAvailablePlugins : availablePlugins :=
  { Collectors := [], Processors := [], Publishers := [] }

/-- Insert a plugin into the pool matching its key inside one table,
creating the pool when absent. -/
def insertIntoTable (tbl : poolTable) (ap : availablePlugin) : poolTable :=
  match tbl with
  | [] => [(ap.Key, { plugins := [ap] })]
  | (k, p) :: rest =>
    if k == ap.Key then (k, { plugins := p.plugins ++ [ap] }) :: rest
    else (k, p) :: insertIntoTable rest ap

/-- Modelled from the spec: `availablePlugins.Insert(plugin)` — adds the
plugin to the pool matching its Key in its category's table (§3: every
AvailablePlugin appears in exactly one pool, the one matching its Key). -/
def availablePlugins.Insert (aps : availablePlugins) (ap : availablePlugin) : availablePlugins :=
  match ap.Cat with
  | .collector => { aps with Collectors := insertIntoTable aps.Collectors ap }
  | .processor => { aps with Processors := insertIntoTable aps.Processors ap }
  | .publisher => { aps with Publishers := insertIntoTable aps.Publishers ap }

/-! ## monitor Start / Stop -/

/-- Method `monitor.Start(availablePlugins)`: allocates the quit channel
(`m.quit = make(chan struct\x7b\x7d)`), launches the ticker goroutine
(elided: its sweep only reads the registry), and sets
`m.State = MonitorStarted`. -/
def monitor.Start (m : monitor) (_availablePlugins : availablePlugins) : monitor :=
  { m with quit := some .opened, State := .MonitorStarted }

/-- Method `monitor.Stop()`: `close(m.quit); m.State = MonitorStopped`.
The close is unconditional: on a nil or already-closed quit channel it
panics, and the state assignment is never reached. -/
def monitor.Stop (m : monitor) : Except goPanic monitor :=
  match closeChan m.quit with
  | .error p => .error p
  | .ok c => .ok { m with quit := some c, State := .MonitorStopped }

/-! ## idCounter (runner.go) -/

/-- Two's-complement wraparound of Go's 64-bit signed `int`:
the result lies in `[-2^63, 2^63)` (the literals below are `2^63` and
`2^64`), and `x` maps to itself exactly when it is already in range. -/
def int64Wrap (x : Int) : Int :=
  (x + 9223372036854775808) % 18446744073709551616 - 9223372036854775808

/-- The `idCounter` struct. The mutex guards `id`; in this sequential
embedding only the integer field is observable. Its value always lies in
the 64-bit signed range. -/
structure idCounter where
  id : Int
  deriving DecidableEq, Repr

/-- Method `idCounter.Next()`: `i.id++; return i.id` (under the lock), the
increment wrapping as Go's fixed-width `int` does. Returns the new value
together with the updated counter. -/
def idCounter.Next (c : idCounter) : Int × idCounter :=
  let v := int64Wrap (c.id + 1)
  (v, { id := v })

/-- A freshly constructed counter, as built by `newRunner`
(`&idCounter\x7bmutex: &sync.Mutex\x7b\x7d\x7d`): `id` starts at its zero
value 0. -/
def freshIdCounter : idCounter := { id := 0 }

/-- The list of values returned by `n` successive `Next()` calls starting
from counter `c`. -/
def idRun : Nat → idCounter → List Int
  | 0, _ => []
  | n + 1, c =>
    match c.Next with
    | (v, c') => v :: idRun n c'

/-- The values of the first `n` calls on a freshly constructed counter. -/
def idValues (n : Nat) : List Int := idRun n freshIdCounter

/-- The counter state after `n` successive `Next()` calls. -/
def idCounterAfter : Nat → idCounter → idCounter
  | 0, c => c
  | n + 1, c => idCounterAfter n c.Next.2

/-! ## checkPool (runner.go) -/

/-- Function `checkPool(pool, key)`: returns the admission decision together with
the log lines written (runner.go lines 261-272). Denial when a pool exists
at or above `MaximumRunningPlugins`; otherwise a "not enough available
plugins" debug line and admission granted. No error value exists in the
signature: a denial is log-only. -/
def checkPool (pool : Option availablePluginPool) (key : String) : Bool × List String :=
  match pool with
  | some p =>
    let c := p.Count
    if c ≥ MaximumRunningPlugins then
      (false, [s!"({key}) has {c} available plugin running (need {MaximumRunningPlugins})"])
    else
      (true, [s!"not enough available plugins ({c}) running for ({key}) need {MaximumRunningPlugins}"])
  | none =>
    (true, [s!"not enough available plugins (0) running for ({key}) need {MaximumRunningPlugins}"])

/-! ## External collaborators of startPlugin -/

/-- Modelled from the spec: `plugin.Response` status (§6: "response
carries a status code and, on failure, a message"). `PluginSuccess` is the
success status tested by `resp.State != plugin.PluginSuccess`. -/
inductive pluginResponseState where
  | PluginSuccess
  | PluginFailure
  deriving DecidableEq, Repr

/-- Modelled from the spec: `plugin.Response` (§6) — the handshake
response: a status code and, on failure, a message. Fields beyond the two
that runner.go reads are carried opaquely by the environment. -/
structure Response where
  State : pluginResponseState
  ErrorMessage : String
  deriving DecidableEq, Repr

/-- The `executablePlugin` interface (runner.go lines 31-35), as the
observable behavior of one process-transport handle: the error of
`Start()`, and for each timeout duration (nanoseconds) the
`(*plugin.Response, error)` pair `WaitForResponse` would produce. -/
structure executablePlugin where
  start : Option String
  waitForResponse : Nat → Option Response × Option String

/-- The external operations `startPlugin` consumes beyond the transport
handle: the fallible `newAvailablePlugin(resp, id, emitter)` constructor
and the new client's `Ping()` (both outside src/; behavior per §4.4
(c)-(d) of the spec). -/
structure pluginEnv where
  newAvailablePlugin : Response → Int → Except String availablePlugin
  ping : availablePlugin → Option String

/-! ## startPlugin (runner.go lines 141-179) -/

/-- Method `runner.startPlugin(p)`: start the process, wait up to
`time.Second * 3` for the handshake, reject a nil response or a
non-success status, build the availablePlugin with a fresh id, ping it,
and only then insert it into the registry. Returns the
`(*availablePlugin, error)` pair together with the updated id counter and
registry. -/
def startPlugin (env : pluginEnv) (p : executablePlugin)
    (counter : idCounter) (aps : availablePlugins) :
    Except String availablePlugin × idCounter × availablePlugins :=
  match p.start with
  | some e => (.error ("error while starting plugin: " ++ e), counter, aps)
  | none =>
    match p.waitForResponse (timeSecond * 3) with
    | (_, some err) => (.error ("error while waiting for response: " ++ err), counter, aps)
    | (none, none) => (.error ("no reponse object returned from plugin"), counter, aps)
    | (some resp, none) =>
      if resp.State ≠ .PluginSuccess then
        (.error ("plugin could not start error: " ++ resp.ErrorMessage), counter, aps)
      else
        match counter.Next with
        | (id, counter') =>
          match env.newAvailablePlugin resp id with
          | .error e => (.error e, counter', aps)
          | .ok ap =>
            match env.ping ap with
            | some e => (.error e, counter', aps)
            | none => (.ok ap, counter', aps.Insert ap)

/-! ## The runner and its delegates (runner.go) -/

/-- A `gomit.Delegator` (external, §6): registration and unregistration of
a named handler, each of which can fail. Modelled by the errors each call
would return. -/
structure Delegator where
  registerHandler : String → Option String
  unregisterHandler : String → Option String

/-- The `runner` struct fields the embedded operations touch. The emitter,
metric catalog and plugin manager are consulted only through environments
passed to the event handler. -/
structure runner where
  delegates : List Delegator
  monitor : monitor
  availablePlugins : availablePlugins
  apIdCounter : idCounter

/-- Constructor `newRunner()`: fresh monitor, empty registry, zeroed id counter, no
delegates. -/
def newRunner : runner :=
  { delegates := []
    monitor := newMonitor
    availablePlugins := newAvailablePlugins
    apIdCounter := freshIdCounter }

/-- Method `runner.AddDelegates(delegates...)`: append to `r.delegates`. -/
def runner.AddDelegates (r : runner) (ds : List Delegator) : runner :=
  { r with delegates := r.delegates ++ ds }

/-- The registration loop of `runner.Start`: call
`RegisterHandler(HandlerRegistrationName, r)` on each delegate in order,
stopping at the first error. Returns the first error (if any) and the
delegates successfully registered before it. -/
def registerAll : List Delegator → Option String × List Delegator
  | [] => (none, [])
  | d :: rest =>
    match d.registerHandler HandlerRegistrationName with
    | some e => (some e, [])
    | none =>
      match registerAll rest with
      | (r, regs) => (r, d :: regs)

/-- Method `runner.Start()` (lines 99-119): error when no delegates were added;
otherwise register with every delegate in order, aborting on the first
failure; only on full success start the monitor. Returns the error, the
updated runner, and the delegates that were registered. -/
def runner.Start (r : runner) : Option String × runner × List Delegator :=
  if r.delegates.length = 0 then
    (some ("No delegates added before called Start()"), r, [])
  else
    match registerAll r.delegates with
    | (some e, regs) => (some e, r, regs)
    | (none, regs) =>
      (none, { r with monitor := r.monitor.Start r.availablePlugins }, regs)

/-- Method `runner.Stop()` (lines 122-139): stop the monitor (a panic there
propagates), then unregister from every delegate, collecting each error;
plugins themselves are not stopped (TODO in the source). Returns the
collected error list and the updated runner. -/
def runner.Stop (r : runner) : Except goPanic (List String × runner) :=
  match r.monitor.Stop with
  | .error p => .error p
  | .ok m' =>
    let errs := r.delegates.filterMap
      (fun d => d.unregisterHandler HandlerRegistrationName)
    .ok (errs, { r with monitor := m' })

/-! ## HandleGomitEvent, publisher-subscription branch (lines 197-222) -/

/-- A loaded plugin as exposed by the external loaded-plugin registry
(§6): name, version, category name, filesystem path, and its key string. -/
structure loadedPlugin where
  name : String
  version : Int
  typeName : String
  path : String
  key : String
  deriving DecidableEq, Repr

/-- The external collaborators consulted by the publisher branch of
`HandleGomitEvent`: the plugin manager's loaded-plugin table and
`GenerateArgs`, `plugin.NewExecutablePlugin` (returning a handle and an
error), and the externals of `startPlugin`. -/
structure runnerEnv where
  loadedPlugins : List loadedPlugin
  generateArgs : String → String
  newExecutablePlugin : String → String → executablePlugin × Option String
  penv : pluginEnv

/-- The match condition of the publisher branch:
`lp.TypeName() == "publisher" && lp.Name() == v.PluginName && lp.Version() == v.PluginVersion`. -/
def publisherMatches (evName : String) (evVersion : Int) (lp : loadedPlugin) : Bool :=
  lp.typeName == "publisher" && lp.name == evName && lp.version == evVersion

/-- The loop body of the publisher-subscription branch of
`HandleGomitEvent`, iterating the loaded-plugin table. For a match: look
up the publisher pool, run `checkPool`; on denial the handler returns
immediately (`if !ok \x7b return \x7d`) — the rest of the table is
abandoned; on admission, build the executable handle (its construction
error is immediately overwritten: `ePlugin, err := ...; _, err =
r.startPlugin(ePlugin)`) and start it; a start error is a `panic(err)`.
Returns, on normal termination, the final id counter and registry and the
matches for which an instance was started (in order). -/
def handlePublisherSubscription (env : runnerEnv) (evName : String) (evVersion : Int) :
    List loadedPlugin → idCounter → availablePlugins →
    Except goPanic (idCounter × availablePlugins × List loadedPlugin)
  | [], c, aps => .ok (c, aps, [])
  | lp :: rest, c, aps =>
    if publisherMatches evName evVersion lp then
      let pool := GetPluginPool aps.Publishers lp.key
      let ok := (checkPool pool lp.key).1
      if !ok then
        .ok (c, aps, [])
      else
        match env.newExecutablePlugin (env.generateArgs lp.path) lp.path with
        | (ePlugin, _err) =>
          match startPlugin env.penv ePlugin c aps with
          | (.error e, _, _) => .error (.errPanic e)
          | (.ok _, c', aps') =>
            match handlePublisherSubscription env evName evVersion rest c' aps' with
            | .error p => .error p
            | .ok (c'', aps'', started) => .ok (c'', aps'', lp :: started)
    else
      handlePublisherSubscription env evName evVersion rest c aps

/-- Dispatch of `HandleGomitEvent` on a `*control_event.PublisherSubscriptionEvent`
(name, version): iterate the full loaded-plugin table under the runner's
mutex (the lock is the sequentialization this embedding already assumes). -/
def HandleGomitEventPublisher (env : runnerEnv) (evName : String) (evVersion : Int)
    (r : runner) : Except goPanic (idCounter × availablePlugins × List loadedPlugin) :=
  handlePublisherSubscription env evName evVersion env.loadedPlugins
    r.apIdCounter r.availablePlugins

/-! ## Theorems -/

/-- C2: `checkPool` grants admission (`true`) exactly when the pool is
absent or its count is strictly below `MaximumRunningPlugins` (3), denies
(`false`) exactly when the pool exists with count at or above 3, and a
denial produces no error: the only output besides the boolean is exactly
one log line. -/
theorem checkPool_admission (pool : Option availablePluginPool) (key : String) :
    ((checkPool pool key).1 = true ↔
      pool = none ∨ ∃ p, pool = some p ∧ p.Count < MaximumRunningPlugins) ∧
    ((checkPool pool key).1 = false ↔
      ∃ p, pool = some p ∧ p.Count ≥ MaximumRunningPlugins) ∧
    (checkPool pool key).2.length = 1 := by
  cases pool with
  | none => simp [checkPool]
  | some p =>
    by_cases h : p.Count ≥ MaximumRunningPlugins
    · simp [checkPool, h]
    · simp [checkPool, h]
      omega

/-- Helper: values in the 64-bit signed range are fixed by `int64Wrap`. -/
theorem int64Wrap_eq_self (x : Int) (h1 : -9223372036854775808 ≤ x)
    (h2 : x < 9223372036854775808) : int64Wrap x = x := by
  unfold int64Wrap
  rw [Int.emod_eq_of_lt (by omega) (by omega)]
  omega

/-- Helper: the first overflowing increment wraps `2^63` to `-2^63`. -/
theorem int64Wrap_top : int64Wrap 9223372036854775808 = -9223372036854775808 := by
  unfold int64Wrap
  decide

/-- Helper: a run of `a + b` calls is the run of the first `a` calls
followed by the run of `b` calls from the intermediate counter state. -/
theorem idRun_split (a b : Nat) : ∀ c : idCounter,
    idRun (a + b) c = idRun a c ++ idRun b (idCounterAfter a c) := by
  induction a with
  | zero =>
    intro c
    rw [Nat.zero_add]
    rfl
  | succ a ih =>
    intro c
    rw [Nat.succ_add]
    show c.Next.1 :: idRun (a + b) c.Next.2 = _
    rw [ih c.Next.2]
    rfl

/-- Helper: while the counter stays strictly below `2^63` no increment
wraps, so `n` calls from value `m` return `m+1, …, m+n`. -/
theorem idRun_no_wrap (n : Nat) : ∀ m : Int, -9223372036854775808 ≤ m →
    m + n < 9223372036854775808 →
    idRun n { id := m } = (List.range n).map (fun k : Nat => m + (k : Int) + 1) := by
  induction n with
  | zero => intro m _ _; simp [idRun]
  | succ n ih =>
    intro m h1 h2
    have hn : (n : Int) ≥ 0 := Int.natCast_nonneg n
    have hc : (((n : Nat) + 1 : Nat) : Int) = (n : Int) + 1 := by push_cast; ring
    rw [hc] at h2
    have hv : int64Wrap (m + 1) = m + 1 :=
      int64Wrap_eq_self (m + 1) (by omega) (by omega)
    show int64Wrap (m + 1) :: idRun n { id := int64Wrap (m + 1) } = _
    rw [hv, ih (m + 1) (by omega) (by omega), List.range_succ_eq_map,
      List.map_cons, List.map_map]
    congr 1
    · omega
    · refine List.map_congr_left (fun k _ => ?_)
      simp only [Function.comp]
      push_cast
      ring

/-- Helper: while no increment wraps, the counter state after `n` calls
from value `m` is `m + n`. -/
theorem idCounterAfter_no_wrap (n : Nat) : ∀ m : Int, -9223372036854775808 ≤ m →
    m + n < 9223372036854775808 →
    idCounterAfter n { id := m } = { id := m + n } := by
  induction n with
  | zero => intro m _ _; simp [idCounterAfter]
  | succ n ih =>
    intro m h1 h2
    have hn : (n : Int) ≥ 0 := Int.natCast_nonneg n
    have hc : (((n : Nat) + 1 : Nat) : Int) = (n : Int) + 1 := by push_cast; ring
    rw [hc] at h2
    have hv : int64Wrap (m + 1) = m + 1 :=
      int64Wrap_eq_self (m + 1) (by omega) (by omega)
    show idCounterAfter n { id := int64Wrap (m + 1) } = _
    rw [hv, ih (m + 1) (by omega) (by omega)]
    congr 1
    omega

/-- C3 counterexample: at the explicit input `N = 2^63` the claim fails —
the `2^63`-th call overflows Go's 64-bit `int` and returns `-2^63`, so the
returned values are the run `1..2^63-1` followed by `-2^63`: they are not
pairwise increasing and are not the contiguous run `1..N`. -/
theorem idCounter_Next_wraps_cex :
    idValues (2 ^ 63)
      = (List.range (2 ^ 63 - 1)).map (fun k : Nat => (k : Int) + 1)
        ++ [-9223372036854775808] ∧
    ¬ (idValues (2 ^ 63)).Pairwise (· < ·) ∧
    idValues (2 ^ 63) ≠ (List.range (2 ^ 63)).map (fun k : Nat => (k : Int) + 1) := by
  have hN : (2 ^ 63 : Nat) = (2 ^ 63 - 1) + 1 := by norm_num
  have hcast : (((2 ^ 63 - 1 : Nat)) : Int) = 9223372036854775807 := by norm_num
  have hfirst : idRun (2 ^ 63 - 1) freshIdCounter
      = (List.range (2 ^ 63 - 1)).map (fun k : Nat => (k : Int) + 1) := by
    rw [freshIdCounter,
      idRun_no_wrap (2 ^ 63 - 1) 0 (by norm_num) (by rw [hcast]; omega)]
    exact List.map_congr_left (fun k _ => by omega)
  have hafter : idCounterAfter (2 ^ 63 - 1) freshIdCounter
      = { id := 9223372036854775807 } := by
    rw [freshIdCounter,
      idCounterAfter_no_wrap (2 ^ 63 - 1) 0 (by norm_num) (by rw [hcast]; omega),
      hcast]
    norm_num
  have hlast : idRun 1 (idCounterAfter (2 ^ 63 - 1) freshIdCounter)
      = [-9223372036854775808] := by
    rw [hafter]
    norm_num [idRun, idCounter.Next, int64Wrap]
  have hmain : idValues (2 ^ 63)
      = (List.range (2 ^ 63 - 1)).map (fun k : Nat => (k : Int) + 1)
        ++ [-9223372036854775808] := by
    conv_lhs => rw [idValues, hN, idRun_split (2 ^ 63 - 1) 1 freshIdCounter,
      hfirst, hlast]
  refine ⟨hmain, ?_, ?_⟩
  · intro hp
    rw [hmain, List.pairwise_append] at hp
    have h1mem : (1 : Int) ∈ (List.range (2 ^ 63 - 1)).map
        (fun k : Nat => (k : Int) + 1) :=
      List.mem_map.mpr ⟨0, List.mem_range.mpr (by norm_num), by norm_num⟩
    have := hp.2.2 1 h1mem (-9223372036854775808) (List.mem_singleton.mpr rfl)
    omega
  · intro heq
    have hmem : (-9223372036854775808 : Int) ∈ idValues (2 ^ 63) := by
      rw [hmain]
      exact List.mem_append_right _ (List.mem_singleton.mpr rfl)
    rw [heq] at hmem
    rcases List.mem_map.mp hmem with ⟨k, _, hk⟩
    have hk0 : (0 : Int) ≤ (k : Int) := Int.natCast_nonneg k
    omega

/-- C3 (amended): on a freshly constructed `idCounter`, as long as the
number of calls stays below `2^63` (before the 64-bit counter can first
overflow), `N` successive `Next()` calls return exactly the contiguous
increasing run `1..N`, each returned value is strictly greater than every
earlier one, and whenever at least one call is made the first call
returns 1; at `N = 2^63` the counter wraps and the run property fails. -/
theorem idCounter_Next_run_bounded (N : Nat) (h : N < 2 ^ 63) :
    idValues N = (List.range N).map (fun k : Nat => (k : Int) + 1) ∧
    (idValues N).Pairwise (· < ·) ∧
    (0 < N → (idValues N).head? = some 1) := by
  have h' : (N : Int) < 9223372036854775808 := by
    have := (Nat.cast_lt (α := Int)).mpr h
    calc (N : Int) < ((2 ^ 63 : Nat) : Int) := this
    _ = 9223372036854775808 := by norm_num
  have hv : idValues N = (List.range N).map (fun k : Nat => (k : Int) + 1) := by
    rw [idValues, freshIdCounter, idRun_no_wrap N 0 (by norm_num) (by omega)]
    exact List.map_congr_left (fun k _ => by omega)
  refine ⟨hv, ?_, ?_⟩
  · rw [hv, List.pairwise_map]
    refine (List.pairwise_lt_range N).imp ?_
    intro a b hab
    omega
  · intro hpos
    rcases Nat.exists_eq_succ_of_ne_zero (Nat.pos_iff_ne_zero.mp hpos) with ⟨M, rfl⟩
    rw [hv, List.range_succ_eq_map]
    simp

/-- Witness for the amended C3: five calls on a fresh counter (5 < 2^63)
return exactly 1,2,3,4,5, pairwise increasing, first value 1. -/
theorem idCounter_Next_run_bounded_witness :
    (5 : Nat) < 2 ^ 63 ∧
    idValues 5 = [1, 2, 3, 4, 5] ∧
    (idValues 5).Pairwise (· < ·) ∧
    (idValues 5).head? = some 1 := by
  have h := idCounter_Next_run_bounded 5 (by norm_num)
  refine ⟨by norm_num, ?_, h.2.1, h.2.2 (by norm_num)⟩
  rw [h.1]
  rfl

/-- C4 counterexample: the second `Stop()` on an already-stopped monitor
executes `close(m.quit)` on a closed channel and panics. -/
theorem monitor_second_stop_panics :
    (newMonitor.Start newAvailablePlugins).Stop
      = .ok { State := .MonitorStopped, quit := some .closed } ∧
    ({ State := .MonitorStopped, quit := some .closed } : monitor).Stop
      = .error .closeOfClosedChannel :=
  ⟨rfl, rfl⟩

/-- C4 (amended): starting the monitor and immediately stopping it does
not panic and leaves State = Stopped (with the quit channel closed); but
calling `Stop()` again on that already-stopped monitor panics with a
close-of-closed-channel panic. -/
theorem monitor_start_stop_contract (m : monitor) (aps : availablePlugins) :
    (m.Start aps).Stop = .ok { State := .MonitorStopped, quit := some .closed } ∧
    ({ State := .MonitorStopped, quit := some .closed } : monitor).Stop
      = .error .closeOfClosedChannel :=
  ⟨rfl, rfl⟩

/-- C9: a monitor that was never started has a nil quit channel
(`newMonitor` never allocates it), so `Stop()` — directly or through
`runner.Stop()` on a runner whose `Start` never ran — closes a nil
channel and panics. -/
theorem monitor_stop_unstarted_panics (ds : List Delegator) :
    newMonitor.quit = none ∧
    newMonitor.Stop = .error .closeOfNilChannel ∧
    (newRunner.AddDelegates ds).Stop = .error .closeOfNilChannel :=
  ⟨rfl, rfl, rfl⟩

/-- Helper: `startPlugin` either fails, returning some error with the
registry exactly as given, or succeeds, returning the constructed plugin
with the registry extended by exactly that plugin. -/
theorem startPlugin_cases (env : pluginEnv) (p : executablePlugin)
    (c : idCounter) (aps : availablePlugins) :
    ((startPlugin env p c aps).2.2 = aps ∧
      ∃ e, (startPlugin env p c aps).1 = .error e) ∨
    (∃ ap, (startPlugin env p c aps).1 = .ok ap ∧
      (startPlugin env p c aps).2.2 = aps.Insert ap) := by
  unfold startPlugin
  split
  · exact .inl ⟨rfl, _, rfl⟩
  · split
    · exact .inl ⟨rfl, _, rfl⟩
    · exact .inl ⟨rfl, _, rfl⟩
    · split
      · exact .inl ⟨rfl, _, rfl⟩
      · split
        · split
          · exact .inl ⟨rfl, _, rfl⟩
          · split
            · exact .inl ⟨rfl, _, rfl⟩
            · exact .inr ⟨_, rfl, rfl⟩

/-- Helper: a successful `startPlugin` returns the constructed plugin and
the registry with exactly that plugin inserted. -/
theorem startPlugin_ok_inserts (env : pluginEnv) (p : executablePlugin)
    (c : idCounter) (aps : availablePlugins) (ap : availablePlugin)
    (c' : idCounter) (aps' : availablePlugins)
    (h : startPlugin env p c aps = (.ok ap, c', aps')) :
    aps' = aps.Insert ap := by
  rcases startPlugin_cases env p c aps with ⟨_, e, herr⟩ | ⟨ap₀, hok, hins⟩
  · rw [h] at herr
    simp at herr
  · rw [h] at hok hins
    simp only [Except.ok.injEq] at hok
    subst hok
    exact hins

/-- C1: whenever `startPlugin` fails at any step — process start error,
handshake transport error or timeout, missing response object, non-success
response status, availablePlugin construction error, or post-start ping
failure — it returns an error and the registry is exactly the registry it
was given: no insertion occurs. -/
theorem startPlugin_failure_leaves_registry_unchanged (env : pluginEnv)
    (p : executablePlugin) (c : idCounter) (aps : availablePlugins) (e : String)
    (h : (startPlugin env p c aps).1 = .error e) :
    (startPlugin env p c aps).2.2 = aps := by
  rcases startPlugin_cases env p c aps with ⟨h1, _⟩ | ⟨ap, hok, _⟩
  · exact h1
  · rw [hok] at h
    simp at h

/-- A transport handle whose handshake times out. -/
def epTimeout : executablePlugin :=
  { start := none
    waitForResponse := fun _ => (none, some ("timeout")) }

/-- A transport handle that starts but never yields a response object. -/
def epNoResponse : executablePlugin :=
  { start := none
    waitForResponse := fun _ => (none, none) }

/-- A transport handle whose handshake reports a non-success status. -/
def epBadStatus : executablePlugin :=
  { start := none
    waitForResponse := fun _ =>
      (some { State := .PluginFailure, ErrorMessage := "license expired" }, none) }

/-- A transport handle whose handshake fully succeeds. -/
def epHealthy : executablePlugin :=
  { start := none
    waitForResponse := fun _ =>
      (some { State := .PluginSuccess, ErrorMessage := "" }, none) }

/-- A plugin environment whose constructor and ping always succeed. -/
def happyPluginEnv : pluginEnv :=
  { newAvailablePlugin := fun _ id =>
      .ok { Id := id, State := .PluginRunning, Key := "k2", Cat := .publisher }
    ping := fun _ => none }

/-- A plugin environment whose post-start ping fails. -/
def pingFailEnv : pluginEnv :=
  { newAvailablePlugin := fun _ id =>
      .ok { Id := id, State := .PluginRunning, Key := "k2", Cat := .publisher }
    ping := fun _ => some ("connection refused") }

/-- Witness for C1: a concrete failing start (handshake timeout) and a
concrete post-ping failure both return an error and leave a concrete
registry untouched. -/
theorem startPlugin_failure_witness :
    (startPlugin happyPluginEnv epTimeout freshIdCounter newAvailablePlugins).1
      = .error ("error while waiting for response: " ++ "timeout") ∧
    (startPlugin happyPluginEnv epTimeout freshIdCounter newAvailablePlugins).2.2
      = newAvailablePlugins ∧
    (startPlugin pingFailEnv epHealthy freshIdCounter newAvailablePlugins).1
      = .error ("connection refused") ∧
    (startPlugin pingFailEnv epHealthy freshIdCounter newAvailablePlugins).2.2
      = newAvailablePlugins :=
  ⟨rfl,
   startPlugin_failure_leaves_registry_unchanged happyPluginEnv epTimeout
     freshIdCounter newAvailablePlugins ("error while waiting for response: " ++ "timeout") rfl,
   rfl,
   startPlugin_failure_leaves_registry_unchanged pingFailEnv epHealthy
     freshIdCounter newAvailablePlugins ("connection refused") rfl⟩

/-- C8: the handshake wait in `startPlugin` is bounded by a fixed
3-second timeout: the outcome depends on the transport only through
`Start()` and the response observed at exactly `time.Second * 3`
nanoseconds; a transport failure or timeout at that bound is returned as
an error; a nil response object is returned as the distinct no-response
error; and a non-success response status is returned as an error embedding
the plugin-reported message. -/
theorem startPlugin_handshake_timeout (env : pluginEnv)
    (p q : executablePlugin) (c : idCounter) (aps : availablePlugins) :
    (timeSecond * 3 = 3000000000) ∧
    (p.start = q.start →
      p.waitForResponse (timeSecond * 3) = q.waitForResponse (timeSecond * 3) →
      startPlugin env p c aps = startPlugin env q c aps) ∧
    (∀ ro err, p.start = none →
      p.waitForResponse (timeSecond * 3) = (ro, some err) →
      startPlugin env p c aps
        = (.error ("error while waiting for response: " ++ err), c, aps)) ∧
    (p.start = none →
      p.waitForResponse (timeSecond * 3) = (none, none) →
      startPlugin env p c aps
        = (.error ("no reponse object returned from plugin"), c, aps)) ∧
    (∀ resp, p.start = none →
      p.waitForResponse (timeSecond * 3) = (some resp, none) →
      resp.State ≠ .PluginSuccess →
      startPlugin env p c aps
        = (.error ("plugin could not start error: " ++ resp.ErrorMessage), c, aps)) := by
  refine ⟨rfl, ?_, ?_, ?_, ?_⟩
  · intro hs hw
    unfold startPlugin
    rw [hs, hw]
  · intro ro err hs hw
    unfold startPlugin
    rw [hs, hw]
    cases ro <;> rfl
  · intro hs hw
    unfold startPlugin
    rw [hs, hw]
  · intro resp hs hw hst
    unfold startPlugin
    rw [hs, hw]
    simp [hst]

/-- Witness for C8: concrete transports exercising the timeout branch,
the nil-response branch, and the non-success-status branch, each applied
through the theorem. -/
theorem startPlugin_handshake_timeout_witness :
    startPlugin happyPluginEnv epTimeout freshIdCounter newAvailablePlugins
      = (.error ("error while waiting for response: " ++ "timeout"),
         freshIdCounter, newAvailablePlugins) ∧
    startPlugin happyPluginEnv epNoResponse freshIdCounter newAvailablePlugins
      = (.error ("no reponse object returned from plugin"),
         freshIdCounter, newAvailablePlugins) ∧
    startPlugin happyPluginEnv epBadStatus freshIdCounter newAvailablePlugins
      = (.error ("plugin could not start error: " ++ "license expired"),
         freshIdCounter, newAvailablePlugins) :=
  ⟨(startPlugin_handshake_timeout happyPluginEnv epTimeout epTimeout
      freshIdCounter newAvailablePlugins).2.2.1 none ("timeout") rfl rfl,
   (startPlugin_handshake_timeout happyPluginEnv epNoResponse epNoResponse
      freshIdCounter newAvailablePlugins).2.2.2.1 rfl rfl,
   (startPlugin_handshake_timeout happyPluginEnv epBadStatus epBadStatus
      freshIdCounter newAvailablePlugins).2.2.2.2
      { State := .PluginFailure, ErrorMessage := "license expired" } rfl rfl
      (by simp)⟩

/-- Helper: a fully successful registration pass registered every
delegate, in order. -/
theorem registerAll_ok (ds : List Delegator) (regs : List Delegator)
    (h : registerAll ds = (none, regs)) :
    regs = ds ∧ ∀ d ∈ ds, d.registerHandler HandlerRegistrationName = none := by
  induction ds generalizing regs with
  | nil =>
    simp only [registerAll, Prod.mk.injEq] at h
    simp [h.2.symm]
  | cons d rest ih =>
    unfold registerAll at h
    cases hr : d.registerHandler HandlerRegistrationName with
    | some e => rw [hr] at h; simp at h
    | none =>
      rw [hr] at h
      rcases hrest : registerAll rest with ⟨r, regs'⟩
      rw [hrest] at h
      simp only [Prod.mk.injEq] at h
      obtain ⟨h1, h2⟩ := h
      subst h1
      obtain ⟨hregs, hall⟩ := ih regs' hrest
      subst hregs
      exact ⟨h2.symm, by
        intro x hx
        rcases List.mem_cons.mp hx with hx | hx
        · subst hx; exact hr
        · exact hall x hx⟩

/-- Helper: a failing registration pass stopped at the first failing
delegate: the registered list is exactly the successful prefix before it,
and nothing after the failure was attempted or registered. -/
theorem registerAll_err (ds : List Delegator) (e : String) (regs : List Delegator)
    (h : registerAll ds = (some e, regs)) :
    ∃ d post, ds = regs ++ d :: post ∧
      (∀ x ∈ regs, x.registerHandler HandlerRegistrationName = none) ∧
      d.registerHandler HandlerRegistrationName = some e := by
  induction ds generalizing regs with
  | nil => simp [registerAll] at h
  | cons d rest ih =>
    unfold registerAll at h
    cases hr : d.registerHandler HandlerRegistrationName with
    | some e' =>
      rw [hr] at h
      simp only [Prod.mk.injEq, Option.some.injEq] at h
      obtain ⟨h1, h2⟩ := h
      subst h1
      subst h2
      exact ⟨d, rest, by simp, by simp, hr⟩
    | none =>
      rw [hr] at h
      rcases hrest : registerAll rest with ⟨r, regs'⟩
      rw [hrest] at h
      simp only [Prod.mk.injEq] at h
      obtain ⟨h1, h2⟩ := h
      subst h1
      subst h2
      obtain ⟨d', post, hsplit, hpre, hfail⟩ := ih regs' hrest
      refine ⟨d', post, by rw [hsplit]; rfl, ?_, hfail⟩
      intro x hx
      rcases List.mem_cons.mp hx with hx | hx
      · subst hx; exact hr
      · exact hpre x hx

/-- C6: `runner.Start()` returns a configuration error when no delegates
were added; otherwise it registers the handler (under the name
`control.runner`) with every delegate in order; the first registration
failure aborts immediately — that error is returned, the runner (hence the
monitor) is unchanged, and exactly the successful prefix stays registered;
only on full registration success is the monitor started and `nil`
returned. -/
theorem runner_Start_contract (r : runner) :
    (HandlerRegistrationName = "control.runner") ∧
    (r.delegates = [] →
      r.Start = (some ("No delegates added before called Start()"), r, [])) ∧
    (∀ e regs, r.delegates ≠ [] → registerAll r.delegates = (some e, regs) →
      r.Start = (some e, r, regs) ∧
      (r.Start.2.1).monitor = r.monitor ∧
      ∃ d post, r.delegates = regs ++ d :: post ∧
        (∀ x ∈ regs, x.registerHandler HandlerRegistrationName = none) ∧
        d.registerHandler HandlerRegistrationName = some e) ∧
    (∀ regs, r.delegates ≠ [] → registerAll r.delegates = (none, regs) →
      r.Start = (none, { r with monitor := r.monitor.Start r.availablePlugins }, regs) ∧
      regs = r.delegates ∧
      (r.Start.2.1).monitor.State = .MonitorStarted) := by
  refine ⟨rfl, ?_, ?_, ?_⟩
  · intro h
    unfold runner.Start
    simp [h, registerAll]
  · intro e regs hne h
    have hlen : ¬ r.delegates.length = 0 := by
      simpa [List.length_eq_zero] using hne
    unfold runner.Start
    rw [if_neg hlen, h]
    exact ⟨rfl, rfl, registerAll_err r.delegates e regs h⟩
  · intro regs hne h
    have hlen : ¬ r.delegates.length = 0 := by
      simpa [List.length_eq_zero] using hne
    unfold runner.Start
    rw [if_neg hlen, h]
    exact ⟨rfl, (registerAll_ok r.delegates regs h).1, rfl⟩

/-- A delegate whose registration and unregistration succeed. -/
def okDelegate : Delegator :=
  { registerHandler := fun _ => none
    unregisterHandler := fun _ => none }

/-- A delegate whose registration fails. -/
def regFailDelegate : Delegator :=
  { registerHandler := fun _ => some ("register refused")
    unregisterHandler := fun _ => none }

/-- Witness for C6: a runner with no delegates errors out; a runner whose
second delegate refuses registration aborts with that error, keeping the
monitor untouched; a runner whose delegates all accept starts the
monitor. -/
theorem runner_Start_contract_witness :
    newRunner.Start = (some ("No delegates added before called Start()"), newRunner, []) ∧
    (newRunner.AddDelegates [okDelegate, regFailDelegate, okDelegate]).Start
      = (some ("register refused"),
         newRunner.AddDelegates [okDelegate, regFailDelegate, okDelegate],
         [okDelegate]) ∧
    (newRunner.AddDelegates [okDelegate, okDelegate]).Start
      = (none,
         { newRunner.AddDelegates [okDelegate, okDelegate] with
             monitor := { State := .MonitorStarted, quit := some .opened } },
         [okDelegate, okDelegate]) :=
  ⟨(runner_Start_contract newRunner).2.1 rfl,
   ((runner_Start_contract (newRunner.AddDelegates [okDelegate, regFailDelegate, okDelegate])).2.2.1
      "register refused" [okDelegate] (by simp [newRunner, runner.AddDelegates]) rfl).1,
   ((runner_Start_contract (newRunner.AddDelegates [okDelegate, okDelegate])).2.2.2
      [okDelegate, okDelegate] (by simp [newRunner, runner.AddDelegates]) rfl).1⟩

/-- C7: on a runner whose monitor is running, `runner.Stop()` stops the
Health Monitor, then attempts unregistration on every delegate without
short-circuiting: the returned list collects exactly the unregistration
errors of all delegates in order, every delegate's failure appears in it
even when an earlier delegate already failed, and the list is empty
exactly when every unregistration succeeded. -/
theorem runner_Stop_contract (r : runner) (h : r.monitor.quit = some .opened) :
    r.Stop = .ok
      (r.delegates.filterMap (fun d => d.unregisterHandler HandlerRegistrationName),
       { r with monitor := { State := .MonitorStopped, quit := some .closed } }) ∧
    (∀ d ∈ r.delegates, ∀ e, d.unregisterHandler HandlerRegistrationName = some e →
      e ∈ r.delegates.filterMap (fun d => d.unregisterHandler HandlerRegistrationName)) ∧
    (r.delegates.filterMap (fun d => d.unregisterHandler HandlerRegistrationName) = []
      ↔ ∀ d ∈ r.delegates, d.unregisterHandler HandlerRegistrationName = none) := by
  refine ⟨?_, ?_, ?_⟩
  · unfold runner.Stop monitor.Stop closeChan
    rw [h]
  · intro d hd e he
    exact List.mem_filterMap.mpr ⟨d, hd, he⟩
  · constructor
    · intro hnil d hd
      by_contra hne
      rcases Option.ne_none_iff_exists'.mp hne with ⟨e, he⟩
      have : e ∈ r.delegates.filterMap
          (fun d => d.unregisterHandler HandlerRegistrationName) :=
        List.mem_filterMap.mpr ⟨d, hd, he⟩
      rw [hnil] at this
      exact absurd this (List.not_mem_nil e)
    · intro hall
      exact List.filterMap_eq_nil_iff.mpr hall

/-- A delegate whose unregistration fails with the given message. -/
def unregFailDelegate (msg : String) : Delegator :=
  { registerHandler := fun _ => none
    unregisterHandler := fun _ => some msg }

/-- A concrete runner with a started monitor and three delegates, the
first and third of which fail to unregister. -/
def stoppableRunner : runner :=
  { delegates := [unregFailDelegate ("u1"), okDelegate, unregFailDelegate ("u2")]
    monitor := { State := .MonitorStarted, quit := some .opened }
    availablePlugins := newAvailablePlugins
    apIdCounter := freshIdCounter }

/-- Witness for C7: stopping `stoppableRunner` collects both
unregistration failures — including the one after the first failure — and
stops the monitor. -/
theorem runner_Stop_contract_witness :
    stoppableRunner.Stop = .ok
      (["u1", "u2"],
       { stoppableRunner with
           monitor := { State := .MonitorStopped, quit := some .closed } }) :=
  (runner_Stop_contract stoppableRunner rfl).1

/-- A running publisher instance in pool "k1". -/
def apK1 (i : Int) : availablePlugin :=
  { Id := i, State := .PluginRunning, Key := "k1", Cat := .publisher }

/-- A publisher pool for "k1" already at the maximum of 3 instances. -/
def fullPool : availablePluginPool :=
  { plugins := [apK1 1, apK1 2, apK1 3] }

/-- A registry whose publisher table has the full "k1" pool and no "k2"
pool. -/
def cexRegistry : availablePlugins :=
  { Collectors := [], Processors := [], Publishers := [("k1", fullPool)] }

/-- A loaded publisher plugin "bar" v2 with key "k1" (its pool is full). -/
def lp1 : loadedPlugin :=
  { name := "bar", version := 2, typeName := "publisher", path := "/p1", key := "k1" }

/-- A loaded publisher plugin "bar" v2 with key "k2" (no pool yet). -/
def lp2 : loadedPlugin :=
  { name := "bar", version := 2, typeName := "publisher", path := "/p2", key := "k2" }

/-- A loaded plugin that does not match a publisher event for "bar" v2. -/
def lpOther : loadedPlugin :=
  { name := "baz", version := 1, typeName := "collector", path := "/p3", key := "k3" }

/-- An event environment in which both matches would start flawlessly:
construction and transport always succeed. -/
def cexEnv : runnerEnv :=
  { loadedPlugins := [lp1, lp2]
    generateArgs := fun p => p
    newExecutablePlugin := fun _ _ => (epHealthy, none)
    penv := happyPluginEnv }

/-- C5 counterexample: with loaded plugins `[lp1, lp2]` both matching the
publisher event ("bar", 2), `lp1`'s pool full and `lp2` passing the
admission check with a transport that would succeed, the handler returns
after the first denial having started nothing — `lp2` is never processed,
so instances are not started "exactly for the matches that pass
admission". -/
theorem handlePublisher_denial_aborts_cex :
    publisherMatches ("bar") 2 lp2 = true ∧
    (checkPool (GetPluginPool cexRegistry.Publishers lp2.key) lp2.key).1 = true ∧
    startPlugin cexEnv.penv epHealthy freshIdCounter cexRegistry
      = (.ok { Id := 1, State := .PluginRunning, Key := "k2", Cat := .publisher },
         { id := 1 },
         cexRegistry.Insert { Id := 1, State := .PluginRunning, Key := "k2", Cat := .publisher }) ∧
    handlePublisherSubscription cexEnv ("bar") 2 cexEnv.loadedPlugins
      freshIdCounter cexRegistry = .ok (freshIdCounter, cexRegistry, []) :=
  ⟨rfl, rfl, rfl, rfl⟩

/-- C5 (amended): processing the loaded-plugin table in order, a
non-matching plugin is skipped; a matching plugin that passes the
admission check has an instance started and inserted into the registry,
and processing continues over the remaining plugins with the updated
state; but a matching plugin that is denied admission spawns nothing and
makes the handler return immediately — the remaining matches are not
processed. -/
theorem handlePublisher_admission_contract (env : runnerEnv) (evName : String)
    (evVersion : Int) (lp : loadedPlugin) (rest : List loadedPlugin)
    (c : idCounter) (aps : availablePlugins) :
    (publisherMatches evName evVersion lp = true →
      (checkPool (GetPluginPool aps.Publishers lp.key) lp.key).1 = false →
      handlePublisherSubscription env evName evVersion (lp :: rest) c aps
        = .ok (c, aps, [])) ∧
    (publisherMatches evName evVersion lp = true →
      (checkPool (GetPluginPool aps.Publishers lp.key) lp.key).1 = true →
      ∀ ap c' aps',
        startPlugin env.penv
            (env.newExecutablePlugin (env.generateArgs lp.path) lp.path).1 c aps
          = (.ok ap, c', aps') →
        aps' = aps.Insert ap ∧
        handlePublisherSubscription env evName evVersion (lp :: rest) c aps
          = (handlePublisherSubscription env evName evVersion rest c' aps').map
              (fun x => (x.1, x.2.1, lp :: x.2.2))) ∧
    (publisherMatches evName evVersion lp = false →
      handlePublisherSubscription env evName evVersion (lp :: rest) c aps
        = handlePublisherSubscription env evName evVersion rest c aps) := by
  have hcons : handlePublisherSubscription env evName evVersion (lp :: rest) c aps =
      if publisherMatches evName evVersion lp then
        if !(checkPool (GetPluginPool aps.Publishers lp.key) lp.key).1 then
          .ok (c, aps, [])
        else
          match startPlugin env.penv
              (env.newExecutablePlugin (env.generateArgs lp.path) lp.path).1 c aps with
          | (.error e, _, _) => .error (.errPanic e)
          | (.ok _, c', aps') =>
            match handlePublisherSubscription env evName evVersion rest c' aps' with
            | .error p => .error p
            | .ok (c'', aps'', started) => .ok (c'', aps'', lp :: started)
      else handlePublisherSubscription env evName evVersion rest c aps := rfl
  refine ⟨?_, ?_, ?_⟩
  · intro hm hdeny
    rw [hcons, hm, hdeny]
    rfl
  · intro hm hadmit ap c' aps' hstart
    refine ⟨startPlugin_ok_inserts _ _ _ _ _ _ _ hstart, ?_⟩
    rw [hcons, hm, hadmit, hstart]
    cases hrest : handlePublisherSubscription env evName evVersion rest c' aps' with
    | error p => simp [hrest, Except.map]
    | ok x =>
      rcases x with ⟨a, b, st⟩
      simp [hrest, Except.map]
  · intro hm
    rw [hcons, hm]
    rfl

/-- The freshly constructed instance `happyPluginEnv` builds for id 1. -/
def apNew : availablePlugin :=
  { Id := 1, State := .PluginRunning, Key := "k2", Cat := .publisher }

/-- Witness for the amended C5: on concrete data, a denied first match
aborts with nothing started; an admitted match starts, inserts, and
processing continues over the rest; a non-match is skipped. -/
theorem handlePublisher_admission_contract_witness :
    handlePublisherSubscription cexEnv ("bar") 2 [lp1, lp2] freshIdCounter cexRegistry
      = .ok (freshIdCounter, cexRegistry, []) ∧
    handlePublisherSubscription cexEnv ("bar") 2 [lp2] freshIdCounter newAvailablePlugins
      = (handlePublisherSubscription cexEnv ("bar") 2 [] { id := 1 }
           (newAvailablePlugins.Insert apNew)).map (fun x => (x.1, x.2.1, lp2 :: x.2.2)) ∧
    handlePublisherSubscription cexEnv ("bar") 2 [lpOther] freshIdCounter cexRegistry
      = handlePublisherSubscription cexEnv ("bar") 2 [] freshIdCounter cexRegistry :=
  ⟨(handlePublisher_admission_contract cexEnv ("bar") 2 lp1 [lp2]
      freshIdCounter cexRegistry).1 rfl rfl,
   ((handlePublisher_admission_contract cexEnv ("bar") 2 lp2 []
      freshIdCounter newAvailablePlugins).2.1 rfl rfl apNew { id := 1 }
      (newAvailablePlugins.Insert apNew) rfl).2,
   (handlePublisher_admission_contract cexEnv ("bar") 2 lpOther []
      freshIdCounter cexRegistry).2.2 rfl⟩

/-- One-step unfolding of the publisher loop body on a cons cell
(holds by computation, destructuring reads only the handle component). -/
theorem handlePublisherSubscription_cons (env : runnerEnv) (evName : String)
    (evVersion : Int) (lp : loadedPlugin) (rest : List loadedPlugin)
    (c : idCounter) (aps : availablePlugins) :
    handlePublisherSubscription env evName evVersion (lp :: rest) c aps =
      if publisherMatches evName evVersion lp then
        if !(checkPool (GetPluginPool aps.Publishers lp.key) lp.key).1 then
          .ok (c, aps, [])
        else
          match startPlugin env.penv
              (env.newExecutablePlugin (env.generateArgs lp.path) lp.path).1 c aps with
          | (.error e, _, _) => .error (.errPanic e)
          | (.ok _, c', aps') =>
            match handlePublisherSubscription env evName evVersion rest c' aps' with
            | .error p => .error p
            | .ok (c'', aps'', started) => .ok (c'', aps'', lp :: started)
      else handlePublisherSubscription env evName evVersion rest c aps := rfl

/-- C10: in the publisher branch, the error returned by
`plugin.NewExecutablePlugin` is dead on arrival — `err` is immediately
overwritten by `startPlugin`'s result — so the handler's behavior is
completely independent of the construction error, and the (possibly
invalid) handle is passed to `startPlugin` anyway: its result alone
decides what happens. -/
theorem publisher_construct_error_ignored (env : runnerEnv)
    (f : String → String → Option String) (evName : String) (evVersion : Int)
    (lps : List loadedPlugin) (c : idCounter) (aps : availablePlugins) :
    handlePublisherSubscription
        { env with newExecutablePlugin :=
            fun a p => ((env.newExecutablePlugin a p).1, f a p) }
        evName evVersion lps c aps
      = handlePublisherSubscription env evName evVersion lps c aps ∧
    (∀ lp rest e c₂ aps₂,
      publisherMatches evName evVersion lp = true →
      (checkPool (GetPluginPool aps.Publishers lp.key) lp.key).1 = true →
      startPlugin env.penv
          (env.newExecutablePlugin (env.generateArgs lp.path) lp.path).1 c aps
        = (.error e, c₂, aps₂) →
      handlePublisherSubscription env evName evVersion (lp :: rest) c aps
        = .error (.errPanic e)) := by
  constructor
  · induction lps generalizing c aps with
    | nil => rfl
    | cons lp rest ih =>
      rw [handlePublisherSubscription_cons, handlePublisherSubscription_cons env]
      dsimp only
      by_cases hm : publisherMatches evName evVersion lp = true
      · rw [hm]
        simp only [if_true]
        by_cases hadm : (checkPool (GetPluginPool aps.Publishers lp.key) lp.key).1 = true
        · rw [hadm]
          simp only [Bool.not_true, Bool.false_eq_true, if_false]
          rcases hsp : startPlugin env.penv
              (env.newExecutablePlugin (env.generateArgs lp.path) lp.path).1 c aps
            with ⟨e | ap, c₂, aps₂⟩
          · rfl
          · dsimp only
            rw [ih c₂ aps₂]
        · rw [Bool.not_eq_true] at hadm
          rw [hadm]
          simp only [Bool.not_false, if_true]
      · rw [Bool.not_eq_true] at hm
        rw [hm]
        simp only [Bool.false_eq_true, if_false]
        exact ih c aps
  · intro lp rest e c₂ aps₂ hm hadm hsp
    rw [handlePublisherSubscription_cons, hm, hadm, hsp]
    rfl

/-- An event environment whose handle construction reports an error while
returning a handle whose handshake then times out. -/
def cex10Env : runnerEnv :=
  { loadedPlugins := [lp2]
    generateArgs := fun p => p
    newExecutablePlugin := fun _ _ => (epTimeout, some ("construction failed"))
    penv := happyPluginEnv }

/-- Witness for C10: with a construction error present, the handle is
still handed to `startPlugin`, whose handshake error alone surfaces (as a
panic) — the construction error never does. -/
theorem publisher_construct_error_ignored_witness :
    handlePublisherSubscription cex10Env ("bar") 2 [lp2] freshIdCounter newAvailablePlugins
      = .error (.errPanic ("error while waiting for response: " ++ "timeout")) :=
  (publisher_construct_error_ignored cex10Env
      (fun _ _ => some ("construction failed")) ("bar") 2 [lp2]
      freshIdCounter newAvailablePlugins).2
    lp2 [] ("error while waiting for response: " ++ "timeout")
    freshIdCounter newAvailablePlugins rfl rfl rfl

end Control
